import Mathlib

set_option maxRecDepth 40000

/-
Verification development for the AIOT MCP dispatch layer.

Shallow embedding of:
  microServices/llm-ai-engine/mcp_integration/service_client.py  (MCPServiceClient)
  microServices/llm-ai-engine/mcp_integration/mcp_client.py      (MCPServiceRegistry)
  microServices/llm-service/database/redis_connection.py         (MCP result cache)
  microServices/llm-service/websocket_server.py                  (LLMWebSocketHandler)

Python dictionaries with string keys are modelled as association lists in
insertion order; scalar JSON-like values are modelled by `PyVal`.  Nested
payload dictionaries that the dispatch layer never inspects (for example the
mock user-preference payload returned by the general-service gRPC stub) are
modelled as opaque scalar tokens.  External collaborators (the HTTP and gRPC
transports, the Redis cache backend and the Postgres audit backend) are
modelled by explicit behaviour oracles; repository code is translated
branch by branch.
-/

/-- Scalar JSON-like Python value (argument and payload values). -/
inductive PyVal where
  | str (s : String)
  | int (i : Int)
  | bool (b : Bool)
  | pynone
deriving DecidableEq, Repr

/-- A Python dict with string keys, in insertion order (keys are unique in
an actual dict; theorems that need uniqueness state it as a hypothesis). -/
abbrev PyDict := List (String × PyVal)

/-- Python truthiness of a scalar value. -/
def PyVal.truthy : PyVal → Bool
  | .str s => !(s == "")
  | .int i => !(i == 0)
  | .bool b => b
  | .pynone => false

/-- Lookup in an association list: Python `d.get(k)` (None when absent). -/
def assocGet {α : Type} (d : List (String × α)) (k : String) : Option α :=
  match d.find? (fun p => p.1 == k) with
  | some p => some p.2
  | none => none

/-- Python `d[k] = v`: replace in place when the key exists, else append. -/
def assocSet {α : Type} (d : List (String × α)) (k : String) (v : α) :
    List (String × α) :=
  if d.any (fun p => p.1 == k) then
    d.map (fun p => if p.1 == k then (k, v) else p)
  else
    d ++ [(k, v)]

/-- Python truthiness of a dict: nonempty. -/
def dictTruthy (d : PyDict) : Bool := !d.isEmpty

/-- Truthiness of `d.get(k)` (missing key counts as falsy, like `result.get('success')`). -/
def getTruthy (d : PyDict) (k : String) : Bool :=
  match assocGet d k with
  | some v => v.truthy
  | none => false

/-! UTF-8 encoding of strings, needed to feed the hash exactly as
`args_str.encode()` does. -/

/-- UTF-8 bytes of one character. -/
def utf8Bytes (c : Char) : List Nat :=
  let n := c.toNat
  if n < 128 then [n]
  else if n < 2048 then
    [192 ||| (n >>> 6), 128 ||| (n &&& 63)]
  else if n < 65536 then
    [224 ||| (n >>> 12), 128 ||| ((n >>> 6) &&& 63), 128 ||| (n &&& 63)]
  else
    [240 ||| (n >>> 18), 128 ||| ((n >>> 12) &&& 63),
     128 ||| ((n >>> 6) &&& 63), 128 ||| (n &&& 63)]

/-- UTF-8 bytes of a string (Python `s.encode()`). -/
def strBytes (s : String) : List Nat := s.data.flatMap utf8Bytes

/-! The MD5 digest, as used by `hashlib.md5` in `_generate_args_hash`.
All arithmetic is on `Nat` reduced modulo `2 ^ 32`. -/

/-- Word modulus `2 ^ 32`. -/
def m32 : Nat := 4294967296

/-- Reduce to 32 bits. -/
def mask32 (n : Nat) : Nat := n % m32

/-- Bitwise complement within 32 bits. -/
def not32 (x : Nat) : Nat := x ^^^ 4294967295

/-- Rotate a 32-bit word left by `n` bits. -/
def rotl32 (x n : Nat) : Nat := mask32 (x <<< n) ||| (x >>> (32 - n))

/-- MD5 round constants `K[i] = floor(2^32 * |sin(i+1)|)`. -/
def md5K : List Nat :=
  [3614090360, 3905402710, 606105819, 3250441966, 4118548399, 1200080426,
   2821735955, 4249261313, 1770035416, 2336552879, 4294925233, 2304563134,
   1804603682, 4254626195, 2792965006, 1236535329, 4129170786, 3225465664,
   643717713, 3921069994, 3593408605, 38016083, 3634488961, 3889429448,
   568446438, 3275163606, 4107603335, 1163531501, 2850285829, 4243563512,
   1735328473, 2368359562, 4294588738, 2272392833, 1839030562, 4259657740,
   2763975236, 1272893353, 4139469664, 3200236656, 681279174, 3936430074,
   3572445317, 76029189, 3654602809, 3873151461, 530742520, 3299628645,
   4096336452, 1126891415, 2878612391, 4237533241, 1700485571, 2399980690,
   4293915773, 2240044497, 1873313359, 4264355552, 2734768916, 1309151649,
   4149444226, 3174756917, 718787259, 3951481745]

/-- MD5 per-round left-rotation amounts. -/
def md5S : List Nat :=
  [7, 12, 17, 22, 7, 12, 17, 22, 7, 12, 17, 22, 7, 12, 17, 22,
   5, 9, 14, 20, 5, 9, 14, 20, 5, 9, 14, 20, 5, 9, 14, 20,
   4, 11, 16, 23, 4, 11, 16, 23, 4, 11, 16, 23, 4, 11, 16, 23,
   6, 10, 15, 21, 6, 10, 15, 21, 6, 10, 15, 21, 6, 10, 15, 21]

/-- MD5 message-word index for step `i`. -/
def md5G (i : Nat) : Nat :=
  if i < 16 then i
  else if i < 32 then (5 * i + 1) % 16
  else if i < 48 then (3 * i + 5) % 16
  else (7 * i) % 16

/-- MD5 nonlinear round function for step `i`. -/
def md5F (i b c d : Nat) : Nat :=
  if i < 16 then (b &&& c) ||| (not32 b &&& d)
  else if i < 32 then (d &&& b) ||| (not32 d &&& c)
  else if i < 48 then b ^^^ c ^^^ d
  else c ^^^ (b ||| not32 d)

/-- Running MD5 state. -/
structure MD5State where
  a : Nat
  b : Nat
  c : Nat
  d : Nat
deriving DecidableEq, Repr

/-- Initial MD5 state. -/
def md5Init : MD5State := ⟨1732584193, 4023233417, 2562383102, 271733878⟩

/-- List element with default 0 (message words, constants, shifts). -/
def nth0 (l : List Nat) (i : Nat) : Nat := l.getD i 0

/-- One MD5 step on message words `w`. -/
def md5Step (w : List Nat) (st : MD5State) (i : Nat) : MD5State :=
  let f := mask32 (st.a + md5F i st.b st.c st.d + nth0 md5K i + nth0 w (md5G i))
  ⟨st.d, mask32 (st.b + rotl32 f (nth0 md5S i)), st.b, st.c⟩

/-- Four consecutive bytes as a little-endian 32-bit word. -/
def leWord (b0 b1 b2 b3 : Nat) : Nat :=
  b0 ||| (b1 <<< 8) ||| (b2 <<< 16) ||| (b3 <<< 24)

/-- Group bytes into little-endian 32-bit words. -/
def toWords : List Nat → List Nat
  | b0 :: b1 :: b2 :: b3 :: rest => leWord b0 b1 b2 b3 :: toWords rest
  | _ => []

/-- Process one 64-byte block. -/
def md5Block (st : MD5State) (w : List Nat) : MD5State :=
  let r := (List.range 64).foldl (md5Step w) st
  ⟨mask32 (st.a + r.a), mask32 (st.b + r.b), mask32 (st.c + r.c), mask32 (st.d + r.d)⟩

/-- Process `fuel` 64-byte blocks of the padded message. -/
def md5Blocks : Nat → MD5State → List Nat → MD5State
  | 0, st, _ => st
  | fuel + 1, st, bytes =>
      md5Blocks fuel (md5Block st (toWords (bytes.take 64))) (bytes.drop 64)

/-- Little-endian byte expansion of `n` to `count` bytes. -/
def leBytes (n count : Nat) : List Nat :=
  (List.range count).map (fun i => (n >>> (8 * i)) % 256)

/-- MD5 message padding: `0x80`, zeros to 56 mod 64, then the 64-bit
little-endian bit length. -/
def md5Pad (msg : List Nat) : List Nat :=
  let zeros := (119 - msg.length % 64) % 64
  msg ++ [128] ++ List.replicate zeros 0 ++ leBytes ((8 * msg.length) % 18446744073709551616) 8

/-- One lowercase hex digit. -/
def hexDigit (n : Nat) : Char :=
  if n < 10 then Char.ofNat (48 + n) else Char.ofNat (87 + n)

/-- Two-digit lowercase hex of a byte. -/
def byteHex (b : Nat) : String :=
  String.mk [hexDigit (b / 16), hexDigit (b % 16)]

/-- Lowercase hex MD5 digest of a string (Python
`hashlib.md5(s.encode()).hexdigest()`). -/
def md5HexDigest (s : String) : String :=
  let padded := md5Pad (strBytes s)
  let st := md5Blocks (padded.length / 64) md5Init padded
  String.join (((leBytes st.a 4 ++ leBytes st.b 4 ++ leBytes st.c 4 ++ leBytes st.d 4).map byteHex))

example : md5HexDigest "" = "d41d8cd98f00b204e9800998ecf8427e" := by decide

example : md5HexDigest "abc" = "900150983cd24fb0d6963f7d28e17f72" := by decide

/-! Canonicalisation of arguments: `str(sorted(arguments.items()))`. -/

/-- Lexicographic less-or-equal on character-code lists: the order Python
uses to compare strings. -/
def charsLe : List Char → List Char → Bool
  | [], _ => true
  | _ :: _, [] => false
  | a :: as, b :: bs =>
      if a.toNat < b.toNat then true
      else if b.toNat < a.toNat then false
      else charsLe as bs

/-- Python string less-or-equal. -/
def strLeB (a b : String) : Bool := charsLe a.data b.data

/-- Comparison used to sort argument items.  Python sorts the `(key, value)`
tuples lexicographically; dict keys are unique, so the comparison never
reaches the values and ordering by key alone is equivalent. -/
def keyLe (a b : String × PyVal) : Prop := strLeB a.1 b.1 = true

instance : DecidableRel keyLe := fun a b => instDecidableEqBool (strLeB a.1 b.1) true

/-- Python `sorted(d.items())` (keys unique in a dict, so any correct
sorting algorithm produces the same list as Python stable sort). -/
def sortedItems (d : PyDict) : PyDict := List.insertionSort keyLe d

/-- Single-quote character, used by Python `repr` of strings. -/
def pyQuote : String := String.singleton (Char.ofNat 39)

/-- Escape of one character inside a single-quoted Python string repr
(common cases: backslash, the quote itself, newline, tab, carriage return). -/
def pyEscapeChar (c : Char) : String :=
  if c = Char.ofNat 92 then "\\\\"
  else if c = Char.ofNat 39 then "\\" ++ pyQuote
  else if c = Char.ofNat 10 then "\\n"
  else if c = Char.ofNat 9 then "\\t"
  else if c = Char.ofNat 13 then "\\r"
  else String.singleton c

/-- Python `repr` of a string (single-quoted form). -/
def pyReprStr (s : String) : String :=
  pyQuote ++ String.join (s.data.map pyEscapeChar) ++ pyQuote

/-- Python `repr` of a scalar value. -/
def pyReprVal : PyVal → String
  | .str s => pyReprStr s
  | .int i => toString i
  | .bool b => if b then "True" else "False"
  | .pynone => "None"

/-- Python `repr` of one `(key, value)` item tuple. -/
def pyReprItem (p : String × PyVal) : String :=
  "(" ++ pyReprStr p.1 ++ ", " ++ pyReprVal p.2 ++ ")"

/-- Python `str` of a list of item tuples. -/
def pyReprItems (l : PyDict) : String :=
  "[" ++ String.intercalate ", " (l.map pyReprItem) ++ "]"

/-- Python string slice `s[:n]` (on characters; hex digests are ASCII). -/
def strTake (s : String) (n : Nat) : String := String.mk (s.data.take n)

/-- MCPServiceClient._generate_args_hash:
`hashlib.md5(str(sorted(arguments.items())).encode()).hexdigest()[:16]`. -/
def generate_args_hash (args : PyDict) : String :=
  strTake (md5HexDigest (pyReprItems (sortedItems args))) 16

example : generate_args_hash [("b", .int 2), ("a", .str "x")] = "61e37ae93d41b091" := by decide

/-- RedisConnectionManager._mcp_cache_key: `mcp_cache:{tool_name}:{args_hash}`. -/
def mcp_cache_key (tool_name args_hash : String) : String :=
  "mcp_cache:" ++ tool_name ++ ":" ++ args_hash

/-! Sorting two permutations of the same unique-keyed items gives the same
list, hence the same canonical string and the same hash. -/

theorem charsLe_total (as bs : List Char) :
    charsLe as bs = true ∨ charsLe bs as = true := by
  induction as generalizing bs with
  | nil => exact Or.inl rfl
  | cons a as ih =>
    cases bs with
    | nil => exact Or.inr rfl
    | cons b bs =>
      by_cases hab : a.toNat < b.toNat
      · exact Or.inl (by simp [charsLe, hab])
      · by_cases hba : b.toNat < a.toNat
        · exact Or.inr (by simp [charsLe, hba, hab])
        · rcases ih bs with h | h
          · exact Or.inl (by simp [charsLe, hab, hba, h])
          · exact Or.inr (by simp [charsLe, hab, hba, h])

theorem charsLe_trans : ∀ (as bs cs : List Char), charsLe as bs = true →
    charsLe bs cs = true → charsLe as cs = true
  | [], _, _, _, _ => rfl
  | _ :: _, [], _, h1, _ => by simp [charsLe] at h1
  | _ :: _, _ :: _, [], _, h2 => by simp [charsLe] at h2
  | a :: as, b :: bs, c :: cs, h1, h2 => by
      simp only [charsLe] at h1 h2 ⊢
      rcases Nat.lt_trichotomy a.toNat b.toNat with hab | hab | hab
      · rcases Nat.lt_trichotomy b.toNat c.toNat with hbc | hbc | hbc
        · simp [show a.toNat < c.toNat by omega]
        · simp [show a.toNat < c.toNat by omega]
        · simp [show ¬ b.toNat < c.toNat by omega, show c.toNat < b.toNat by omega] at h2
      · rcases Nat.lt_trichotomy b.toNat c.toNat with hbc | hbc | hbc
        · simp [show a.toNat < c.toNat by omega]
        · simp only [show ¬ a.toNat < b.toNat by omega, show ¬ b.toNat < a.toNat by omega,
            if_false] at h1
          simp only [show ¬ b.toNat < c.toNat by omega, show ¬ c.toNat < b.toNat by omega,
            if_false] at h2
          simp only [show ¬ a.toNat < c.toNat by omega, show ¬ c.toNat < a.toNat by omega,
            if_false]
          exact charsLe_trans as bs cs h1 h2
        · simp [show ¬ b.toNat < c.toNat by omega, show c.toNat < b.toNat by omega] at h2
      · simp [show ¬ a.toNat < b.toNat by omega, show b.toNat < a.toNat by omega] at h1

theorem charsLe_antisymm : ∀ (as bs : List Char), charsLe as bs = true →
    charsLe bs as = true → as = bs
  | [], [], _, _ => rfl
  | [], _ :: _, _, h2 => by simp [charsLe] at h2
  | _ :: _, [], h1, _ => by simp [charsLe] at h1
  | a :: as, b :: bs, h1, h2 => by
      simp only [charsLe] at h1 h2
      rcases Nat.lt_trichotomy a.toNat b.toNat with hab | hab | hab
      · simp [show ¬ b.toNat < a.toNat by omega, show a.toNat < b.toNat from hab] at h2
      · have heq : a = b := Char.ext (UInt32.ext hab)
        subst heq
        simp only [Nat.lt_irrefl, if_false] at h1 h2
        exact congrArg (a :: ·) (charsLe_antisymm as bs h1 h2)
      · simp [show ¬ a.toNat < b.toNat by omega, show b.toNat < a.toNat from hab] at h1

instance : IsTotal (String × PyVal) keyLe :=
  ⟨fun a b => charsLe_total a.1.data b.1.data⟩

instance : IsTrans (String × PyVal) keyLe :=
  ⟨fun a b c h1 h2 => charsLe_trans a.1.data b.1.data c.1.data h1 h2⟩

/-- Key order on items, strengthened by key distinctness into an
antisymmetric relation. -/
def itemOrd (a b : String × PyVal) : Prop := (keyLe a b ∧ a.1 ≠ b.1) ∨ a = b

theorem sortedItems_eq_of_perm (a1 a2 : PyDict) (hperm : a1.Perm a2)
    (hnd : (a1.map Prod.fst).Nodup) : sortedItems a1 = sortedItems a2 := by
  haveI : IsAntisymm (String × PyVal) itemOrd := by
    constructor
    intro a b hab hba
    rcases hab with ⟨hab, habne⟩ | hab
    · rcases hba with ⟨hba, _⟩ | hba
      · exact absurd (String.ext (charsLe_antisymm a.1.data b.1.data hab hba)) habne
      · exact hba.symm
    · exact hab
  have hsorted : ∀ (l : PyDict), (l.map Prod.fst).Nodup →
      List.Sorted itemOrd (List.insertionSort keyLe l) := by
    intro l hl
    have hpair : List.Sorted keyLe (List.insertionSort keyLe l) :=
      List.sorted_insertionSort keyLe l
    have hndk : ((List.insertionSort keyLe l).map Prod.fst).Nodup :=
      (((List.perm_insertionSort keyLe l).map Prod.fst).nodup_iff).mpr hl
    have hne : List.Pairwise (fun a b : String × PyVal => a.1 ≠ b.1)
        (List.insertionSort keyLe l) := List.pairwise_map.mp hndk
    refine (hpair.and hne).imp ?_
    intro a b hab
    exact Or.inl hab
  have hnd2 : (a2.map Prod.fst).Nodup := ((hperm.map Prod.fst).nodup_iff).mp hnd
  exact List.eq_of_perm_of_sorted
    (((List.perm_insertionSort keyLe a1).trans hperm).trans
      (List.perm_insertionSort keyLe a2).symm)
    (hsorted a1 hnd) (hsorted a2 hnd2)

/-- C2: for every tool name `t` and argument mappings `a1`, `a2` containing
the same key/value pairs in any insertion order (same pairs up to
permutation, keys unique as in a Python dict), the cache key computed from
`_generate_args_hash` and `_mcp_cache_key` is identical: argument order never
affects the cache key. -/
theorem cache_key_independent_of_argument_order
    (t : String) (a1 a2 : PyDict) (hperm : a1.Perm a2)
    (hnd : (a1.map Prod.fst).Nodup) :
    mcp_cache_key t (generate_args_hash a1) = mcp_cache_key t (generate_args_hash a2) := by
  unfold generate_args_hash
  rw [sortedItems_eq_of_perm a1 a2 hperm hnd]

/-- Witness for C2 at concrete arguments in two insertion orders. -/
theorem cache_key_independent_of_argument_order_witness :
    mcp_cache_key "get_user_info" (generate_args_hash [("userId", .str "42"), ("includeRoles", .bool true)])
      = mcp_cache_key "get_user_info" (generate_args_hash [("includeRoles", .bool true), ("userId", .str "42")]) :=
  cache_key_independent_of_argument_order "get_user_info" _ _ (by decide) (by decide)

/-! Embedding of MCPServiceRegistry (mcp_integration/mcp_client.py). -/

/-- A tool dict as passed to `register_service`: its `name` entry plus the
remaining entries (description, inputSchema), which the registry stores but
never inspects.  A tool dict always contains at least its name, so it is
truthy as a Python dict. -/
structure ToolSpec where
  name : String
  info : PyDict
deriving DecidableEq, Repr

/-- Value stored in `self.services[service_name]`:
`{'url': service_url, 'tools': {tool['name']: tool for tool in tools}}`. -/
structure ServiceInfo where
  url : String
  tools : List (String × ToolSpec)
deriving DecidableEq, Repr

/-- MCPServiceRegistry state: `self.services` and the tool-to-service index
`self.tools`. -/
structure MCPServiceRegistry where
  services : List (String × ServiceInfo)
  tools : List (String × String)
deriving DecidableEq, Repr

/-- The dict comprehension `{tool['name']: tool for tool in tools}`
(a duplicated name keeps its first position with the last value, as in a
Python dict). -/
def toolsDict (tools : List ToolSpec) : List (String × ToolSpec) :=
  tools.foldl (fun d t => assocSet d t.name t) []

/-- MCPServiceRegistry.register_service: store the service entry, then write
every tool name into the tool-to-service index (existing entries for the
same tool name are overwritten; nothing is ever removed). -/
def register_service (reg : MCPServiceRegistry) (service_name service_url : String)
    (tools : List ToolSpec) : MCPServiceRegistry :=
  { services := assocSet reg.services service_name ⟨service_url, toolsDict tools⟩
    tools := tools.foldl (fun d t => assocSet d t.name service_name) reg.tools }

/-- Result of a successful `find_tool`: the stored tool dict copied and
annotated with the `service` and `service_url` keys. -/
structure FoundTool where
  spec : ToolSpec
  service : String
  service_url : String
deriving DecidableEq, Repr

/-- MCPServiceRegistry.find_tool.  `if not service_name` is Python
truthiness, so an empty-string service name is treated as not found. -/
def find_tool (reg : MCPServiceRegistry) (tool_name : String) : Option FoundTool :=
  match assocGet reg.tools tool_name with
  | none => none
  | some service_name =>
    if service_name == "" then none
    else
      match assocGet reg.services service_name with
      | none => none
      | some service_info =>
        match assocGet service_info.tools tool_name with
        | none => none
        | some tool_info => some ⟨tool_info, service_name, service_info.url⟩

/-- The empty registry created at module load. -/
def emptyRegistry : MCPServiceRegistry := ⟨[], []⟩

/-- A `ping` tool registered first under `svc-a`. -/
def pingToolA : ToolSpec := ⟨"ping", [("description", .str "ping a")]⟩

/-- A `ping` tool re-registered under `svc-b`. -/
def pingToolB : ToolSpec := ⟨"ping", [("description", .str "ping b")]⟩

/-- Registry after registering `ping` under `svc-a` and then under `svc-b`. -/
def regPingTwice : MCPServiceRegistry :=
  register_service
    (register_service emptyRegistry "svc-a" "http://svc-a" [pingToolA])
    "svc-b" "http://svc-b" [pingToolB]

/-- C9: registering tool `ping` under service `svc-a` via `register_service`
and then re-registering `ping` under `svc-b` makes `find_tool "ping"`
resolve to `svc-b` (last write wins, no conflict error). -/
theorem find_tool_last_write_wins :
    find_tool regPingTwice "ping" = some ⟨pingToolB, "svc-b", "http://svc-b"⟩ := by
  decide

/-- Registry in which `svc-a` first offered `ping` and was then re-registered
with an empty tool list, leaving a stale `ping -> svc-a` index entry. -/
def regStalePing : MCPServiceRegistry :=
  register_service
    (register_service emptyRegistry "svc-a" "http://svc-a" [pingToolA])
    "svc-a" "http://svc-a" []

/-- C10: `find_tool` returns a tool only when the service currently mapped to
the name still carries the tool in its current tool set; after a
re-registration of the owning service that omits the tool, `find_tool`
returns none (no stale data, no exception) even though the tool-to-service
index still holds the stale entry. -/
theorem find_tool_current_tools_only :
    (∀ (reg : MCPServiceRegistry) (name : String) (ft : FoundTool),
        find_tool reg name = some ft →
        ∃ si, assocGet reg.tools name = some ft.service ∧
          assocGet reg.services ft.service = some si ∧
          assocGet si.tools name = some ft.spec) ∧
    (find_tool regStalePing "ping" = none ∧
      assocGet regStalePing.tools "ping" = some "svc-a") := by
  constructor
  · intro reg name ft h
    unfold find_tool at h
    split at h
    · exact absurd h (by simp)
    · split at h
      · exact absurd h (by simp)
      · split at h
        · exact absurd h (by simp)
        · split at h
          · exact absurd h (by simp)
          · rename_i ti htool
            cases h
            exact ⟨_, by assumption, by assumption, htool⟩
  · constructor
    · decide
    · decide

/-- Witness for C10 applying the general part at a concrete registry where
the lookup succeeds. -/
theorem find_tool_current_tools_only_witness :
    ∃ si, assocGet regPingTwice.tools "ping" = some "svc-b" ∧
      assocGet regPingTwice.services "svc-b" = some si ∧
      assocGet si.tools "ping" = some pingToolB :=
  find_tool_current_tools_only.1 regPingTwice "ping"
    ⟨pingToolB, "svc-b", "http://svc-b"⟩ (by decide)

/-! Embedding of MCPServiceClient (mcp_integration/service_client.py).
The HTTP and gRPC libraries, the Redis cache backend and the Postgres audit
backend are external collaborators; their behaviour during one dispatch is
an explicit `DispatchEnv` oracle, while every branch the repository code
takes on that behaviour is translated from the source. -/

/-- Python `tool_name.startswith(pre)`. -/
def startsWithChars : List Char → List Char → Bool
  | _, [] => true
  | [], _ :: _ => false
  | a :: as, b :: bs => a == b && startsWithChars as bs

/-- Python `s.startswith(pre)` on strings. -/
def startswith (s pre : String) : Bool := startsWithChars s.data pre.data

/-- Which transport helper a dispatch invoked. -/
inductive Transport where
  | grpc
  | http
deriving DecidableEq, Repr

/-- Behaviour of the one HTTP POST inside `_call_via_http`:
a 200 response with a decoded JSON body, a non-200 status, an
`httpx.TimeoutException`, or any other exception. -/
inductive HttpEvent where
  | status200 (body : PyDict)
  | statusOther (code : Nat) (text : String)
  | timeout
  | exn (msg : String)
deriving DecidableEq, Repr

/-- Behaviour of the gRPC channel operations inside `_call_via_grpc`:
success (the per-service stub code then computes the result), a
`grpc.RpcError`, or any other exception. -/
inductive GrpcEvent where
  | ok
  | rpcError (code details : String)
  | exn (msg : String)
deriving DecidableEq, Repr

/-- External behaviour during one dispatch: the transport events and whether
the cache and audit backends succeed (when false the backend raises and the
repository code catches it), plus the measured wall-clock duration. -/
structure DispatchEnv where
  httpEvent : HttpEvent
  grpcEvent : GrpcEvent
  cacheGetOk : Bool
  cacheSetOk : Bool
  auditOk : Bool
  elapsedMs : Nat
deriving DecidableEq, Repr

/-- Endpoint table `self.service_endpoints` fixed in `MCPServiceClient.__init__`:
http url, grpc host, grpc port per service. -/
structure EndpointConfig where
  http_url : String
  grpc_host : String
  grpc_port : Nat
deriving DecidableEq, Repr

/-- The three configured services. -/
def service_endpoints : List (String × EndpointConfig) :=
  [("general-service", ⟨"http://aiot-general-service:3053", "aiot-general-service", 50053⟩),
   ("rbac-service", ⟨"http://aiot-rbac-service:3051", "aiot-rbac-service", 50051⟩),
   ("drone-service", ⟨"http://aiot-drone-service:3052", "aiot-drone-service", 50052⟩)]

/-- The Redis MCP cache: full cache key to the stored result dict.
`cache_mcp_result` wraps the result as `{'result': ..., 'cached_at': ...,
'tool_name': ...}` and `get_cached_mcp_result` unwraps `['result']` again,
so the store is modelled as mapping the key to the result dict itself. -/
abbrev CacheStore := List (String × PyDict)

/-- Truthiness of `arguments.get('userId')` style lookups. -/
def optTruthy : Option PyVal → Bool
  | some v => v.truthy
  | none => false

/-- MCPServiceClient._call_general_service_grpc: the mock stub.  The nested
user-preference payload dict is opaque to the dispatcher and modelled as an
opaque scalar token. -/
def call_general_service_grpc (tool_name : String) (arguments : PyDict) : PyDict :=
  if tool_name == "get_user_preferences" && optTruthy (assocGet arguments "userId") then
    [("success", .bool true), ("data", .str "mock-user-preferences-payload")]
  else
    [("success", .bool false), ("error", .str "Tool not implemented")]

/-- MCPServiceClient._call_rbac_service_grpc: not implemented yet. -/
def call_rbac_service_grpc (tool_name : String) (arguments : PyDict) : PyDict :=
  [("success", .bool false), ("error", .str "RBAC gRPC not implemented yet")]

/-- MCPServiceClient._call_drone_service_grpc: not implemented yet. -/
def call_drone_service_grpc (tool_name : String) (arguments : PyDict) : PyDict :=
  [("success", .bool false), ("error", .str "Drone gRPC not implemented yet")]

/-- MCPServiceClient._call_via_grpc.  An unknown service raises `ValueError`
before the try block (`.error`); inside the try block a `grpc.RpcError` or
any other exception is converted to a `success=False` dict. -/
def call_via_grpc (ev : GrpcEvent) (service_name tool_name : String)
    (arguments : PyDict) : Except String PyDict :=
  match assocGet service_endpoints service_name with
  | none => .error ("Unknown service: " ++ service_name)
  | some _ =>
      match ev with
      | .ok =>
          if service_name == "general-service" then
            .ok (call_general_service_grpc tool_name arguments)
          else if service_name == "rbac-service" then
            .ok (call_rbac_service_grpc tool_name arguments)
          else if service_name == "drone-service" then
            .ok (call_drone_service_grpc tool_name arguments)
          else
            .ok [("success", .bool false),
                 ("error", .str ("gRPC call exception: gRPC not implemented for " ++ service_name))]
      | .rpcError code details =>
          .ok [("success", .bool false),
               ("error", .str ("gRPC error: " ++ code ++ " - " ++ details))]
      | .exn msg =>
          .ok [("success", .bool false), ("error", .str ("gRPC call exception: " ++ msg))]

/-- MCPServiceClient._call_via_http.  An unknown service raises `ValueError`
before the try block (`.error`); inside the try block a 200 response returns
the decoded body, any other status, timeout or exception is converted to a
`success=False` dict. -/
def call_via_http (ev : HttpEvent) (service_name tool_name : String)
    (arguments : PyDict) : Except String PyDict :=
  match assocGet service_endpoints service_name with
  | none => .error ("Unknown service: " ++ service_name)
  | some _ =>
      match ev with
      | .status200 body => .ok body
      | .statusOther code text =>
          .ok [("success", .bool false), ("error", .str ("HTTP " ++ toString code ++ ": " ++ text))]
      | .timeout =>
          .ok [("success", .bool false),
               ("error", .str ("HTTP timeout calling " ++ tool_name ++ " on " ++ service_name))]
      | .exn msg =>
          .ok [("success", .bool false), ("error", .str ("HTTP call exception: " ++ msg))]

/-- MCPServiceClient._check_cache composed with `get_cached_mcp_result`: a
cache-backend failure is caught and treated as a miss, and a stored entry is
returned only when truthy (`if cached_result:`). -/
def check_cache (env : DispatchEnv) (cache : CacheStore)
    (tool_name args_hash : String) : Option PyDict :=
  if env.cacheGetOk then
    match assocGet cache (mcp_cache_key tool_name args_hash) with
    | some v => if dictTruthy v then some v else none
    | none => none
  else none

/-- MCPServiceClient._cache_result composed with `cache_mcp_result` (setex
with the default 900 second TTL): a cache-backend failure is caught and
leaves the store unchanged. -/
def cache_result (env : DispatchEnv) (cache : CacheStore)
    (tool_name args_hash : String) (result : PyDict) : CacheStore :=
  if env.cacheSetOk then assocSet cache (mcp_cache_key tool_name args_hash) result
  else cache

/-- One row written by `postgres_manager.log_mcp_tool_call`, with exactly the
arguments `_log_tool_call` passes. -/
structure AuditRecord where
  conversation_id : Option String
  message_id : Option String
  user_id : String
  tool_name : String
  service_name : String
  arguments : PyDict
  result : PyDict
  success : PyVal
  error_message : Option PyVal
  execution_time_ms : Nat
deriving DecidableEq, Repr

/-- MCPServiceClient._log_tool_call: append one audit row; an audit-backend
failure is caught and logged, leaving the audit log unchanged. -/
def log_tool_call (env : DispatchEnv) (audit : List AuditRecord)
    (r : AuditRecord) : List AuditRecord :=
  if env.auditOk then audit ++ [r] else audit

/-- The dict `call_service_tool` returns, one field per possible key.
The `result`, `error`, `cached` and `execution_time_ms` keys are present
only on some paths, hence the `Option` fields. -/
structure CallResponse where
  success : PyVal
  result : Option PyDict
  error : Option String
  cached : Option Bool
  service : String
  tool : String
  execution_time_ms : Option Nat
deriving DecidableEq, Repr

/-- Everything one dispatch produced: the returned dict, the cache store and
audit log after the call, and which transport helpers were invoked. -/
structure DispatchOutput where
  response : CallResponse
  cache : CacheStore
  audit : List AuditRecord
  transports : List Transport
deriving DecidableEq, Repr

/-- MCPServiceClient.call_service_tool.  `.ok` is a normal return; `.error`
would be an exception escaping to the caller (the body's try/except is
translated as the match on the helper's `Except` result). -/
def call_service_tool (env : DispatchEnv) (cache : CacheStore)
    (audit : List AuditRecord) (service_name tool_name : String)
    (arguments : PyDict) (user_id : String)
    (conversation_id message_id : Option String) :
    Except String DispatchOutput :=
  match check_cache env cache tool_name (generate_args_hash arguments) with
  | some cached_result =>
      .ok ⟨⟨.bool true, some cached_result, none, some true, service_name, tool_name, none⟩,
           cache,
           log_tool_call env audit
             ⟨conversation_id, message_id, user_id, tool_name, service_name,
              arguments, cached_result, .bool true, none, env.elapsedMs⟩,
           []⟩
  | none =>
      let use_grpc := startswith tool_name "get_" || startswith tool_name "check_"
      let transport := if use_grpc then Transport.grpc else Transport.http
      match (if use_grpc then call_via_grpc env.grpcEvent service_name tool_name arguments
             else call_via_http env.httpEvent service_name tool_name arguments) with
      | .ok result =>
          .ok ⟨⟨(assocGet result "success").getD (.bool false), some result, none, some false,
                service_name, tool_name, some env.elapsedMs⟩,
               (if getTruthy result "success" then
                  cache_result env cache tool_name (generate_args_hash arguments) result
                else cache),
               log_tool_call env audit
                 ⟨conversation_id, message_id, user_id, tool_name, service_name,
                  arguments, result, (assocGet result "success").getD (.bool false),
                  assocGet result "error", env.elapsedMs⟩,
               [transport]⟩
      | .error e =>
          .ok ⟨⟨.bool false, none, some e, none, service_name, tool_name, some env.elapsedMs⟩,
               cache,
               log_tool_call env audit
                 ⟨conversation_id, message_id, user_id, tool_name, service_name,
                  arguments, [], .bool false, some (.str e), env.elapsedMs⟩,
               [transport]⟩

/-- Output of a dispatch that returned normally, with a dummy default on the
(never occurring) exception case; used to state scenario properties. -/
def exceptOut (r : Except String DispatchOutput) : DispatchOutput :=
  match r with
  | .ok out => out
  | .error _ => ⟨⟨.pynone, none, none, none, "", "", none⟩, [], [], []⟩

/-- Dispatch environment with a given HTTP event, a successful gRPC channel
and functioning cache and audit backends. -/
def envWith (h : HttpEvent) : DispatchEnv := ⟨h, .ok, true, true, true, 5⟩

/-- C1 counterexample: the tool name `list_users` begins with `list_`, yet a
cache-miss dispatch of it is executed over the HTTP transport, where the
claim requires the RPC transport for the `list_` prefix. -/
theorem list_prefixed_tool_dispatches_over_http :
    startswith "list_users" "list_" = true ∧
    (exceptOut (call_service_tool (envWith (.status200 [("success", .bool true)])) [] []
        "rbac-service" "list_users" [] "u1" none none)).transports = [Transport.http] := by
  constructor
  · decide
  · rfl

/-- C1 amended: on a cache miss, the transport is selected by tool-name
prefix with exactly `get_` and `check_` routed to the RPC transport; every
other tool name — including `list_`-prefixed ones — is dispatched over the
HTTP transport. -/
theorem transport_selected_by_prefix
    (env : DispatchEnv) (cache : CacheStore) (audit : List AuditRecord)
    (sn tn : String) (args : PyDict) (uid : String) (cid mid : Option String)
    (hmiss : check_cache env cache tn (generate_args_hash args) = none) :
    (exceptOut (call_service_tool env cache audit sn tn args uid cid mid)).transports =
      [if startswith tn "get_" || startswith tn "check_" then Transport.grpc
       else Transport.http] := by
  simp only [call_service_tool, hmiss]
  cases hatt : (if startswith tn "get_" || startswith tn "check_" then
      call_via_grpc env.grpcEvent sn tn args
    else call_via_http env.httpEvent sn tn args) with
  | error e => simp only [hatt, exceptOut]
  | ok result => simp only [hatt, exceptOut]

/-- Witness for C1 amended at a concrete miss: `check_user_permission` is
routed to the RPC transport. -/
theorem transport_selected_by_prefix_witness :
    (exceptOut (call_service_tool (envWith .timeout) [] [] "rbac-service"
        "check_user_permission" [("userId", .str "7"), ("permission", .str "read")]
        "u1" none none)).transports =
      [if startswith "check_user_permission" "get_" || startswith "check_user_permission" "check_"
       then Transport.grpc else Transport.http] :=
  transport_selected_by_prefix (envWith .timeout) [] [] "rbac-service"
    "check_user_permission" [("userId", .str "7"), ("permission", .str "read")]
    "u1" none none rfl

theorem getTruthy_eq_getD (d : PyDict) (k : String) :
    getTruthy d k = ((assocGet d k).getD (.bool false)).truthy := by
  unfold getTruthy
  cases assocGet d k with
  | some v => rfl
  | none => rfl

theorem dictTruthy_of_getTruthy (d : PyDict) (k : String)
    (h : getTruthy d k = true) : dictTruthy d = true := by
  cases d with
  | nil => simp [getTruthy, assocGet, List.find?] at h
  | cons p l => rfl

/-- C3: with a functioning audit backend, every dispatch attempt through
`call_service_tool` — cache hit, transport success, transport failure or
exception — appends exactly one audit record; in particular the cache-hit
path also writes one record before returning. -/
theorem every_dispatch_attempt_writes_one_audit_record
    (env : DispatchEnv) (cache : CacheStore) (audit : List AuditRecord)
    (sn tn : String) (args : PyDict) (uid : String) (cid mid : Option String)
    (haudit : env.auditOk = true) :
    (exceptOut (call_service_tool env cache audit sn tn args uid cid mid)).audit.length =
      audit.length + 1 := by
  cases hc : check_cache env cache tn (generate_args_hash args) with
  | some cached =>
      simp only [call_service_tool, hc, exceptOut, log_tool_call, haudit, if_true]
      simp
  | none =>
      simp only [call_service_tool, hc]
      cases hatt : (if startswith tn "get_" || startswith tn "check_" then
          call_via_grpc env.grpcEvent sn tn args
        else call_via_http env.httpEvent sn tn args) with
      | ok result =>
          simp only [hatt, exceptOut, log_tool_call, haudit, if_true]
          simp
      | error e =>
          simp only [hatt, exceptOut, log_tool_call, haudit, if_true]
          simp

/-- Witness for C3: a cache-hit dispatch appends exactly one audit record. -/
theorem every_dispatch_attempt_writes_one_audit_record_witness :
    (exceptOut (call_service_tool (envWith .timeout)
        [(mcp_cache_key "get_user_info" (generate_args_hash []), [("success", .bool true)])]
        [] "rbac-service" "get_user_info" [] "u1" none none)).audit.length = 0 + 1 :=
  every_dispatch_attempt_writes_one_audit_record (envWith .timeout)
    [(mcp_cache_key "get_user_info" (generate_args_hash []), [("success", .bool true)])]
    [] "rbac-service" "get_user_info" [] "u1" none none rfl

/-- C4: a cache entry is written only when the transport result is a
success; a dispatch whose returned response is a failure (falsy `success`,
which covers transport failure dicts and caught exceptions) leaves the cache
store unchanged. -/
theorem failed_dispatch_leaves_cache_unchanged
    (env : DispatchEnv) (cache : CacheStore) (audit : List AuditRecord)
    (sn tn : String) (args : PyDict) (uid : String) (cid mid : Option String)
    (hfail : ((exceptOut (call_service_tool env cache audit sn tn args uid cid mid)).response.success).truthy = false) :
    (exceptOut (call_service_tool env cache audit sn tn args uid cid mid)).cache = cache := by
  cases hc : check_cache env cache tn (generate_args_hash args) with
  | some cached => simp only [call_service_tool, hc, exceptOut]
  | none =>
      simp only [call_service_tool, hc] at hfail ⊢
      cases hatt : (if startswith tn "get_" || startswith tn "check_" then
          call_via_grpc env.grpcEvent sn tn args
        else call_via_http env.httpEvent sn tn args) with
      | ok result =>
          simp only [hatt, exceptOut] at hfail ⊢
          rw [show getTruthy result "success" = false from
            (getTruthy_eq_getD result "success").trans hfail]
          simp
      | error e => simp only [hatt, exceptOut]

/-- Witness for C4: a timed-out HTTP dispatch writes nothing to the cache. -/
theorem failed_dispatch_leaves_cache_unchanged_witness :
    (exceptOut (call_service_tool (envWith .timeout) [] [] "rbac-service"
        "update_user_preference" [("userId", .str "7")] "u1" none none)).cache = [] :=
  failed_dispatch_leaves_cache_unchanged (envWith .timeout) [] [] "rbac-service"
    "update_user_preference" [("userId", .str "7")] "u1" none none rfl

/-- A transport-failure HTTP event: timeout, non-success status, or an
exception during the call. -/
def HttpEvent.failed : HttpEvent → Bool
  | .status200 _ => false
  | _ => true

/-- A transport-failure gRPC event: a `grpc.RpcError` or any exception. -/
def GrpcEvent.failed : GrpcEvent → Bool
  | .ok => false
  | _ => true

/-- Normal return (no exception escaped to the caller). -/
def exceptIsOk (r : Except String DispatchOutput) : Bool :=
  match r with
  | .ok _ => true
  | .error _ => false

/-- An error message is present in the returned dict: either the top-level
`error` key (exception path) or an `error` key inside the returned `result`
dict (transport-failure dicts). -/
def errorPresent (r : CallResponse) : Bool :=
  r.error.isSome ||
    (match r.result with
     | some d => (assocGet d "error").isSome
     | none => false)

/-- C6: `call_service_tool` never raises to its caller — every call is a
normal return — and on a cache miss any transport failure (timeout,
non-success status, transport or library error, or the unknown-service
exception) yields a response with falsy `success` and an error message. -/
theorem dispatch_never_raises_and_converts_failures
    (env : DispatchEnv) (cache : CacheStore) (audit : List AuditRecord)
    (sn tn : String) (args : PyDict) (uid : String) (cid mid : Option String) :
    exceptIsOk (call_service_tool env cache audit sn tn args uid cid mid) = true ∧
    (check_cache env cache tn (generate_args_hash args) = none →
      ((if startswith tn "get_" || startswith tn "check_" then env.grpcEvent.failed
        else env.httpEvent.failed) = true ∨ assocGet service_endpoints sn = none) →
      ((exceptOut (call_service_tool env cache audit sn tn args uid cid mid)).response.success).truthy = false ∧
        errorPresent (exceptOut (call_service_tool env cache audit sn tn args uid cid mid)).response = true) := by
  constructor
  · cases hc : check_cache env cache tn (generate_args_hash args) with
    | some cached => simp only [call_service_tool, hc, exceptIsOk]
    | none =>
        simp only [call_service_tool, hc]
        cases hatt : (if startswith tn "get_" || startswith tn "check_" then
            call_via_grpc env.grpcEvent sn tn args
          else call_via_http env.httpEvent sn tn args) with
        | ok result => simp only [hatt, exceptIsOk]
        | error e => simp only [hatt, exceptIsOk]
  · intro hmiss hfail
    simp only [call_service_tool, hmiss]
    cases hug : (startswith tn "get_" || startswith tn "check_") with
    | true =>
        simp only [hug, if_true] at hfail ⊢
        cases hep : assocGet service_endpoints sn with
        | none =>
            simp only [call_via_grpc, hep, exceptOut]
            exact ⟨rfl, rfl⟩
        | some cfg =>
            cases hge : env.grpcEvent with
            | ok =>
                rw [hge] at hfail
                rcases hfail with hf | hn
                · simp [GrpcEvent.failed] at hf
                · rw [hep] at hn
                  exact absurd hn (by simp)
            | rpcError code details =>
                simp only [hge, call_via_grpc, hep, exceptOut]
                exact ⟨rfl, rfl⟩
            | exn msg =>
                simp only [hge, call_via_grpc, hep, exceptOut]
                exact ⟨rfl, rfl⟩
    | false =>
        simp only [hug, if_false, Bool.false_eq_true] at hfail ⊢
        cases hep : assocGet service_endpoints sn with
        | none =>
            simp only [call_via_http, hep, exceptOut]
            exact ⟨rfl, rfl⟩
        | some cfg =>
            cases hhe : env.httpEvent with
            | status200 body =>
                rw [hhe] at hfail
                rcases hfail with hf | hn
                · simp [HttpEvent.failed] at hf
                · rw [hep] at hn
                  exact absurd hn (by simp)
            | statusOther code text =>
                simp only [hhe, call_via_http, hep, exceptOut]
                exact ⟨rfl, rfl⟩
            | timeout =>
                simp only [hhe, call_via_http, hep, exceptOut]
                exact ⟨rfl, rfl⟩
            | exn msg =>
                simp only [hhe, call_via_http, hep, exceptOut]
                exact ⟨rfl, rfl⟩

/-- Witness for C6: a gRPC library error on a cache-miss `get_` dispatch is
converted to a normal falsy-success return with an error message. -/
theorem dispatch_never_raises_and_converts_failures_witness :
    exceptIsOk (call_service_tool ⟨.timeout, .exn "boom", true, true, true, 3⟩ [] []
        "drone-service" "get_drone_positions" [] "u1" none none) = true ∧
    ((exceptOut (call_service_tool ⟨.timeout, .exn "boom", true, true, true, 3⟩ [] []
        "drone-service" "get_drone_positions" [] "u1" none none)).response.success).truthy = false ∧
      errorPresent (exceptOut (call_service_tool ⟨.timeout, .exn "boom", true, true, true, 3⟩ [] []
        "drone-service" "get_drone_positions" [] "u1" none none)).response = true := by
  obtain ⟨h1, h2⟩ := dispatch_never_raises_and_converts_failures
    ⟨.timeout, .exn "boom", true, true, true, 3⟩ [] [] "drone-service"
    "get_drone_positions" [] "u1" none none
  exact ⟨h1, h2 rfl (Or.inl rfl)⟩

theorem assocGet_map_replace {α : Type} (l : List (String × α)) (k : String) (v : α)
    (h : l.any (fun p => p.1 == k) = true) :
    assocGet (l.map (fun p => if p.1 == k then (k, v) else p)) k = some v := by
  induction l with
  | nil => simp at h
  | cons p l ih =>
    by_cases hp : (p.1 == k) = true
    · simp [assocGet, List.find?, hp]
    · simp only [List.any_cons, Bool.or_eq_true] at h
      rcases h with h | h
      · exact absurd h hp
      · have h2 := ih h
        simp only [List.map_cons, if_neg hp]
        unfold assocGet at h2 ⊢
        rw [List.find?_cons_of_neg _ (by simpa using hp)]
        exact h2

theorem assocGet_append_new {α : Type} (d : List (String × α)) (k : String) (v : α)
    (h : d.any (fun p => p.1 == k) = false) :
    assocGet (d ++ [(k, v)]) k = some v := by
  induction d with
  | nil => simp [assocGet, List.find?]
  | cons p l ih =>
    simp only [List.any_cons, Bool.or_eq_false_iff] at h
    unfold assocGet at ih ⊢
    rw [List.cons_append, List.find?_cons_of_neg _ (by simp [h.1])]
    exact ih h.2

theorem assocGet_set_self {α : Type} (d : List (String × α)) (k : String) (v : α) :
    assocGet (assocSet d k v) k = some v := by
  unfold assocSet
  by_cases h : d.any (fun p => p.1 == k) = true
  · rw [if_pos h]
    exact assocGet_map_replace d k v h
  · rw [if_neg h]
    refine assocGet_append_new d k v ?_
    cases hb : d.any (fun p => p.1 == k) with
    | false => rfl
    | true => exact absurd hb h

theorem check_cache_eq_some (env : DispatchEnv) (cache : CacheStore)
    (tn ah : String) (c : PyDict)
    (h : check_cache env cache tn ah = some c) :
    assocGet cache (mcp_cache_key tn ah) = some c ∧ dictTruthy c = true := by
  unfold check_cache at h
  split at h
  · split at h
    · split at h
      · cases h
        exact ⟨by assumption, by assumption⟩
      · exact absurd h (by simp)
    · exact absurd h (by simp)
  · exact absurd h (by simp)

/-- C5: if a dispatch of tool `tn` with arguments `args` succeeds (truthy
returned `success`), then an immediately following dispatch of the same
tool and arguments — within the TTL, with the cache backend functioning —
returns `cached=true` and invokes no transport helper (neither HTTP nor
RPC). -/
theorem successful_dispatch_then_identical_is_cached
    (env1 env2 : DispatchEnv) (cache : CacheStore) (audit1 audit2 : List AuditRecord)
    (sn tn : String) (args : PyDict) (uid1 uid2 : String)
    (cid1 mid1 cid2 mid2 : Option String)
    (hset : env1.cacheSetOk = true) (hget : env2.cacheGetOk = true)
    (hsucc : ((exceptOut (call_service_tool env1 cache audit1 sn tn args uid1 cid1 mid1)).response.success).truthy = true) :
    (exceptOut (call_service_tool env2
        (exceptOut (call_service_tool env1 cache audit1 sn tn args uid1 cid1 mid1)).cache
        audit2 sn tn args uid2 cid2 mid2)).response.cached = some true ∧
    (exceptOut (call_service_tool env2
        (exceptOut (call_service_tool env1 cache audit1 sn tn args uid1 cid1 mid1)).cache
        audit2 sn tn args uid2 cid2 mid2)).transports = [] := by
  cases hc : check_cache env1 cache tn (generate_args_hash args) with
  | some cached =>
      obtain ⟨hfound, htruthy⟩ := check_cache_eq_some env1 cache tn
        (generate_args_hash args) cached hc
      have hsecond : check_cache env2 cache tn (generate_args_hash args) = some cached := by
        simp only [check_cache, hget, if_true, hfound, htruthy]
      simp only [call_service_tool, hc, exceptOut, hsecond]
      exact ⟨by trivial, by trivial⟩
  | none =>
      simp only [call_service_tool, hc] at hsucc ⊢
      cases hatt : (if startswith tn "get_" || startswith tn "check_" then
          call_via_grpc env1.grpcEvent sn tn args
        else call_via_http env1.httpEvent sn tn args) with
      | error e =>
          rw [hatt] at hsucc
          simp [exceptOut, PyVal.truthy] at hsucc
      | ok result =>
          rw [hatt] at hsucc
          simp only [exceptOut] at hsucc ⊢
          have hsuccess : getTruthy result "success" = true :=
            (getTruthy_eq_getD result "success").trans hsucc
          rw [hsuccess]
          simp only [if_true, cache_result, hset]
          have hsecond : check_cache env2
              (assocSet cache (mcp_cache_key tn (generate_args_hash args)) result)
              tn (generate_args_hash args) = some result := by
            simp only [check_cache, hget, if_true, assocGet_set_self,
              dictTruthy_of_getTruthy result "success" hsuccess]
          simp only [call_service_tool, hsecond, exceptOut]
          exact ⟨by trivial, by trivial⟩

/-- Environment used by the C5 witness: HTTP returns 200 with a successful
body, all backends function. -/
def envSuccessBody : DispatchEnv :=
  ⟨.status200 [("success", .bool true), ("data", .str "ok")], .ok, true, true, true, 4⟩

/-- Witness for C5: a concrete successful dispatch of `update_user_preference`
followed by an identical dispatch returns `cached=true` with no transport
call. -/
theorem successful_dispatch_then_identical_is_cached_witness :
    (exceptOut (call_service_tool envSuccessBody
        (exceptOut (call_service_tool envSuccessBody [] [] "general-service"
          "update_user_preference" [("userId", .str "7")] "u1" none none)).cache
        [] "general-service" "update_user_preference" [("userId", .str "7")] "u2" none none)).response.cached = some true ∧
    (exceptOut (call_service_tool envSuccessBody
        (exceptOut (call_service_tool envSuccessBody [] [] "general-service"
          "update_user_preference" [("userId", .str "7")] "u1" none none)).cache
        [] "general-service" "update_user_preference" [("userId", .str "7")] "u2" none none)).transports = [] :=
  successful_dispatch_then_identical_is_cached envSuccessBody envSuccessBody [] [] []
    "general-service" "update_user_preference" [("userId", .str "7")] "u1" "u2"
    none none none none rfl rfl rfl

/-! Embedding of LLMWebSocketHandler (llm-service/websocket_server.py).
The AI service and the MCP query processor are external collaborators
modelled as oracles; `send_message` catches its own exceptions and never
raises, so an emitted envelope is one `send_message` call in order. -/

/-- Inbound WebSocketMessage after pydantic validation. -/
structure WsMessage where
  mtype : String
  data : PyDict
  message_id : Option String
  user_id : Option String
  conversation_id : Option String
deriving DecidableEq, Repr

/-- Outbound WebSocketResponse (the wall-clock timestamp field is not
modelled). -/
structure WsResponse where
  rtype : String
  success : Bool
  data : Option PyDict
  message : Option String
  error : Option String
  message_id : Option String
deriving DecidableEq, Repr

/-- Result dict of `generate_response` and
`generate_conversational_response`, with the defaults of the `.get` calls
already applied; `sources` is an opaque payload (a list in the source,
never inspected by the handler). -/
structure GenResult where
  success : Bool
  response : String
  sources : PyVal
  model : String
  error : Option String
deriving DecidableEq, Repr

/-- Behaviour of one `stream_generate` run: the chunks the generator yields
and, when it fails, the exception message it raises after them. -/
structure StreamGen where
  chunks : List String
  failMsg : Option String
deriving DecidableEq, Repr

/-- The AI service collaborator (`self.ai_service`). -/
structure AiService where
  generate : PyVal → PyVal → GenResult
  conversational : PyVal → PyVal → GenResult
  stream_generate : PyVal → StreamGen

/-- Result of `NaturalLanguageQueryProcessor.process_query` as the handler
reads it; `tool_result` is an opaque payload. -/
structure McpResult where
  success : Bool
  response : String
  tool_used : Option String
  service_called : Option String
  tool_result : PyVal
  error : Option String
deriving DecidableEq, Repr

/-- The MCP query-processor collaborator (`self.mcp_processor`). -/
structure McpProcessor where
  process_query : PyVal → PyVal → String → Option String → McpResult

/-- The handler's collaborators (`None` is falsy in the availability
checks). -/
structure WsEnv where
  ai_service : Option AiService
  mcp_processor : Option McpProcessor

/-- Optional string to the JSON value the response serialiser emits. -/
def optToVal : Option String → PyVal
  | some s => .str s
  | none => .pynone

/-- Python `s.strip()`. -/
def pyStrip (s : String) : String := s.trim

/-- LLMWebSocketHandler._handle_generate; raises `HTTPException` when the
service is unavailable. -/
def handle_generate (env : WsEnv) (m : WsMessage) : Except String (List WsResponse) :=
  match env.ai_service with
  | none => .error "AI Service not available"
  | some svc =>
      let result := svc.generate ((assocGet m.data "prompt").getD (.str ""))
        ((assocGet m.data "use_rag").getD (.bool false))
      .ok [⟨"response", result.success,
            (if result.success then
              some [("response", .str result.response), ("sources", result.sources),
                    ("model", .str result.model)]
             else none),
            none,
            (if result.success then none else result.error),
            m.message_id⟩]

/-- LLMWebSocketHandler._handle_conversational.  The best-effort message
persistence to Postgres is an external side effect that emits no envelope
and is caught on failure; it is not modelled. -/
def handle_conversational (env : WsEnv) (m : WsMessage) : Except String (List WsResponse) :=
  match env.ai_service with
  | none => .error "AI Service not available"
  | some svc =>
      let result := svc.conversational ((assocGet m.data "prompt").getD (.str ""))
        ((assocGet m.data "use_rag").getD (.bool false))
      .ok [⟨"response", result.success,
            (if result.success then
              some [("response", .str result.response), ("sources", result.sources),
                    ("model", .str result.model)]
             else none),
            none,
            (if result.success then none else result.error),
            m.message_id⟩]

/-- The `stream_chunk` envelopes: one per yielded chunk, carrying the chunk
and the accumulated full response. -/
def stream_chunk_outs (mid : Option String) : List String → String → List WsResponse
  | [], _ => []
  | c :: rest, acc =>
      ⟨"stream_chunk", true, some [("chunk", .str c), ("full_response", .str (acc ++ c))],
        none, none, mid⟩ :: stream_chunk_outs mid rest (acc ++ c)

/-- LLMWebSocketHandler._handle_stream: `stream_start`, one `stream_chunk`
per chunk, then `stream_end`, or `stream_error` when the generator raises
(the already-sent chunks stay sent); raises `HTTPException` when the service
is unavailable. -/
def handle_stream (env : WsEnv) (m : WsMessage) : Except String (List WsResponse) :=
  match env.ai_service with
  | none => .error "AI Service not available"
  | some svc =>
      let g := svc.stream_generate ((assocGet m.data "prompt").getD (.str ""))
      .ok (⟨"stream_start", true, none, some "開始串流生成...", none, m.message_id⟩
        :: (stream_chunk_outs m.message_id g.chunks "" ++
            [match g.failMsg with
             | none =>
                ⟨"stream_end", true, some [("full_response", .str (String.join g.chunks))],
                  some "串流生成完成", none, m.message_id⟩
             | some e =>
                ⟨"stream_error", false, none, none, some ("串流生成錯誤: " ++ e),
                  m.message_id⟩]))

/-- LLMWebSocketHandler._handle_mcp_query: unavailable processor or blank
query give one `error` envelope; otherwise `mcp_processing` then exactly one
`mcp_response`.  A non-string `query` value raises at `.strip()`. -/
def handle_mcp_query (env : WsEnv) (m : WsMessage) (user_id : Option String) :
    Except String (List WsResponse) :=
  match env.mcp_processor with
  | none => .ok [⟨"error", false, none, none, some "MCP 服務不可用", m.message_id⟩]
  | some proc =>
      match (assocGet m.data "query").getD (.str "") with
      | .str q =>
          if pyStrip q == "" then
            .ok [⟨"error", false, none, none, some "查詢內容不能為空", m.message_id⟩]
          else
            let result := proc.process_query (.str q)
              ((assocGet m.data "use_conversation").getD (.bool false))
              (user_id.getD "anonymous") m.conversation_id
            .ok [⟨"mcp_processing", true, some [("query", .str q)],
                  some "正在處理自然語言查詢...", none, m.message_id⟩,
                 ⟨"mcp_response", result.success,
                  (if result.success then
                    some [("response", .str result.response),
                          ("tool_used", optToVal result.tool_used),
                          ("service_called", optToVal result.service_called),
                          ("raw_result", result.tool_result)]
                   else none),
                  none,
                  (if result.success then none else result.error),
                  m.message_id⟩]
      | v => .error ("AttributeError: " ++ pyReprVal v ++ " has no attribute strip")

/-- LLMWebSocketHandler._handle_message: dispatch on the `type`
discriminator; an unsupported type or any exception escaping a handler is
converted into exactly one `error` envelope. -/
def handle_message (env : WsEnv) (m : WsMessage) (user_id : Option String) :
    List WsResponse :=
  match (if m.mtype == "generate" then handle_generate env m
         else if m.mtype == "conversational" then handle_conversational env m
         else if m.mtype == "stream" then handle_stream env m
         else if m.mtype == "mcp_query" then handle_mcp_query env m user_id
         else .ok [⟨"error", false, none, none,
                    some ("不支援的消息類型: " ++ m.mtype), m.message_id⟩]) with
  | .ok outs => outs
  | .error e =>
      [⟨"error", false, none, none,
        some ("處理 " ++ m.mtype ++ " 請求時發生錯誤: " ++ e), m.message_id⟩]

/-- One inbound event as classified by the decode step of
`handle_connection`: raw text failing `json.loads`/pydantic validation, a
validated message, a non-disconnect exception from `receive_text`, or the
client disconnect. -/
inductive Inbound where
  | malformed (errMsg : String)
  | valid (m : WsMessage)
  | recvError (errMsg : String)
  | disconnect

/-- The read-decode-dispatch-respond loop of `handle_connection`: a
malformed message sends exactly one `error` envelope (without a message id)
and continues; a valid message gets a fresh uuid (`fresh n`) when it carries
no id and is dispatched; a receive error sends one `error` envelope tagged
with the previous message id (the `locals()` check) and continues; a
disconnect breaks the loop.  `n` counts the uuids drawn, `last` is the
previous message id. -/
def connection_loop (env : WsEnv) (user_id : Option String) (fresh : Nat → String) :
    List Inbound → Nat → Option String → List WsResponse
  | [], _, _ => []
  | .disconnect :: _, _, _ => []
  | .malformed e :: rest, n, last =>
      ⟨"error", false, none, none, some ("無效的消息格式: " ++ e), none⟩
        :: connection_loop env user_id fresh rest n last
  | .recvError e :: rest, n, last =>
      ⟨"error", false, none, none, some ("處理消息時發生錯誤: " ++ e), last⟩
        :: connection_loop env user_id fresh rest n last
  | .valid m :: rest, n, last =>
      match m.message_id with
      | some i =>
          handle_message env { m with message_id := some i } user_id
            ++ connection_loop env user_id fresh rest n (some i)
      | none =>
          handle_message env { m with message_id := some (fresh n) } user_id
            ++ connection_loop env user_id fresh rest (n + 1) (some (fresh n))

/-- LLMWebSocketHandler.handle_connection: the welcome `status` envelope,
then the message loop. -/
def handle_connection (env : WsEnv) (connection_id : String)
    (user_id : Option String) (fresh : Nat → String) (inputs : List Inbound) :
    List WsResponse :=
  ⟨"status", true,
    some [("connection_id", .str connection_id), ("user_id", optToVal user_id)],
    some "WebSocket 連接成功，可以開始對話了！", none, none⟩
    :: connection_loop env user_id fresh inputs 0 none

theorem stream_chunk_outs_map_rtype (mid : Option String) (cs : List String) (acc : String) :
    (stream_chunk_outs mid cs acc).map WsResponse.rtype =
      List.replicate cs.length "stream_chunk" := by
  induction cs generalizing acc with
  | nil => rfl
  | cons c rest ih => simp [stream_chunk_outs, ih, List.replicate_succ]

/-- C7: processing one `stream` envelope (AI service available) emits, in
order on the same connection, exactly one `stream_start`, then one
`stream_chunk` per generated chunk (N ≥ 0), then exactly one terminal
envelope — `stream_end` on success, `stream_error` when generation fails;
never both terminals and never a chunk after the terminal. -/
theorem stream_envelope_emits_start_chunks_one_terminal
    (env : WsEnv) (svc : AiService) (m : WsMessage) (uid : Option String)
    (hsvc : env.ai_service = some svc) (hm : m.mtype = "stream") :
    (handle_message env m uid).map WsResponse.rtype =
      "stream_start" ::
        (List.replicate
            (svc.stream_generate ((assocGet m.data "prompt").getD (.str ""))).chunks.length
            "stream_chunk" ++
          [match (svc.stream_generate ((assocGet m.data "prompt").getD (.str ""))).failMsg with
           | none => "stream_end"
           | some _ => "stream_error"]) := by
  cases hf : (svc.stream_generate ((assocGet m.data "prompt").getD (.str ""))).failMsg with
  | none =>
      simp [handle_message, hm, handle_stream, hsvc, hf, stream_chunk_outs_map_rtype]
  | some e =>
      simp [handle_message, hm, handle_stream, hsvc, hf, stream_chunk_outs_map_rtype]

/-- AI service used in concrete websocket scenarios: it streams two chunks
successfully. -/
def svcTwoChunks : AiService :=
  ⟨fun _ _ => ⟨true, "ok", .pynone, "m", none⟩,
   fun _ _ => ⟨true, "ok", .pynone, "m", none⟩,
   fun _ => ⟨["he", "llo"], none⟩⟩

/-- Websocket environment for the concrete scenarios. -/
def wsEnvTwoChunks : WsEnv := ⟨some svcTwoChunks, none⟩

/-- Witness for C7: a `stream` envelope with prompt `hi` yields
`stream_start`, two `stream_chunk`s and one `stream_end`. -/
theorem stream_envelope_emits_start_chunks_one_terminal_witness :
    (handle_message wsEnvTwoChunks ⟨"stream", [("prompt", .str "hi")], some "m1", none, none⟩
        none).map WsResponse.rtype =
      "stream_start" ::
        (List.replicate
            (svcTwoChunks.stream_generate ((assocGet [("prompt", PyVal.str "hi")] "prompt").getD (.str ""))).chunks.length
            "stream_chunk" ++
          [match (svcTwoChunks.stream_generate ((assocGet [("prompt", PyVal.str "hi")] "prompt").getD (.str ""))).failMsg with
           | none => "stream_end"
           | some _ => "stream_error"]) :=
  stream_envelope_emits_start_chunks_one_terminal wsEnvTwoChunks svcTwoChunks
    ⟨"stream", [("prompt", .str "hi")], some "m1", none, none⟩ none rfl rfl

/-- C8: an inbound message that fails JSON decoding or schema validation
produces exactly one `error` envelope and does not close the connection: the
loop keeps reading, and every later input is processed exactly as it would
be; the loop ends only at a disconnect. -/
theorem malformed_message_one_error_connection_stays_open
    (env : WsEnv) (uid : Option String) (fresh : Nat → String)
    (pre post : List Inbound) (e : String) (n : Nat) (last : Option String)
    (hpre : ∀ i ∈ pre, i ≠ Inbound.disconnect) :
    ∃ n2 last2,
      connection_loop env uid fresh (pre ++ Inbound.malformed e :: post) n last =
        connection_loop env uid fresh pre n last ++
          (⟨"error", false, none, none, some ("無效的消息格式: " ++ e), none⟩
            :: connection_loop env uid fresh post n2 last2) := by
  induction pre generalizing n last with
  | nil => exact ⟨n, last, rfl⟩
  | cons i pre ih =>
      have hi : i ≠ Inbound.disconnect := hpre i (by simp)
      have hpre2 : ∀ j ∈ pre, j ≠ Inbound.disconnect := fun j hj => hpre j (by simp [hj])
      cases i with
      | disconnect => exact absurd rfl hi
      | malformed e2 =>
          obtain ⟨n2, last2, h⟩ := ih n last hpre2
          exact ⟨n2, last2, by simp [connection_loop, h]⟩
      | recvError e2 =>
          obtain ⟨n2, last2, h⟩ := ih n last hpre2
          exact ⟨n2, last2, by simp [connection_loop, h]⟩
      | valid m =>
          cases hmid : m.message_id with
          | some i2 =>
              obtain ⟨n2, last2, h⟩ := ih n (some i2) hpre2
              exact ⟨n2, last2, by simp [connection_loop, hmid, h]⟩
          | none =>
              obtain ⟨n2, last2, h⟩ := ih (n + 1) (some (fresh n)) hpre2
              exact ⟨n2, last2, by simp [connection_loop, hmid, h]⟩

/-- Witness for C8: a malformed message between two valid `stream` messages
produces one error envelope and the following message is still processed. -/
theorem malformed_message_one_error_connection_stays_open_witness :
    ∃ n2 last2,
      connection_loop wsEnvTwoChunks none (fun _ => "uuid")
          ([Inbound.valid ⟨"stream", [("prompt", .str "hi")], some "m1", none, none⟩] ++
            Inbound.malformed "Expecting value" ::
              [Inbound.valid ⟨"stream", [("prompt", .str "yo")], some "m2", none, none⟩]) 0 none =
        connection_loop wsEnvTwoChunks none (fun _ => "uuid")
            [Inbound.valid ⟨"stream", [("prompt", .str "hi")], some "m1", none, none⟩] 0 none ++
          (⟨"error", false, none, none, some ("無效的消息格式: " ++ "Expecting value"), none⟩
            :: connection_loop wsEnvTwoChunks none (fun _ => "uuid")
                [Inbound.valid ⟨"stream", [("prompt", .str "yo")], some "m2", none, none⟩] n2 last2) :=
  malformed_message_one_error_connection_stays_open wsEnvTwoChunks none (fun _ => "uuid")
    [Inbound.valid ⟨"stream", [("prompt", .str "hi")], some "m1", none, none⟩]
    [Inbound.valid ⟨"stream", [("prompt", .str "yo")], some "m2", none, none⟩]
    "Expecting value" 0 none (by intro i hi; simp at hi; subst hi; intro hc; cases hc)
